import Mathlib

/-!
Shallow embedding of `src/server.js` (fcc-lol/number-frame-controller-server),
latest revision: the question→number resolution pipeline
(`processQuestionLogic`), the number normalizer (`enforceMaxDigits`), the
`NumberResponse` zod schema, the batch library update endpoint
(`/update-suggested-questions-library`), and the current-question endpoint
(`/get-current-question`).

JavaScript strings are modelled as Lean `String`; JS `trim` / `toLowerCase`
are modelled explicitly over the character list (all inputs of interest are
ASCII). JS numbers (finite doubles, as parsed from JSON or produced by the
oracle) are modelled as `ℚ`: every finite double is a rational, and
`Math.floor`, `Math.abs` and `%` are exact on them.
-/

/-- JS whitespace test used by `String.prototype.trim` (ASCII fragment). -/
def isJsWhitespace (c : Char) : Bool :=
  c == ' ' || c == '\t' || c == '\n' || c == '\r'

/-- Model of JS `s.trim()`: drop leading and trailing whitespace. -/
def jsTrim (s : String) : String :=
  String.mk (((s.data.dropWhile isJsWhitespace).reverse.dropWhile isJsWhitespace).reverse)

/-- Model of JS `s.toLowerCase()` (ASCII). -/
def jsToLower (s : String) : String :=
  String.mk (s.data.map Char.toLower)

/-- Model of JS `Math.abs` on (exact) numbers. -/
def jsAbs (q : ℚ) : ℚ := if q < 0 then -q else q

/-- `enforceMaxDigits` (src/server.js lines 729-744): convert to a positive
integer via `Math.floor(Math.abs(num))`, map 0 to 1, and fold values above
9999 into range via `(intNum % 9999) + 1`. -/
def enforceMaxDigits (num : ℚ) : ℤ :=
  let intNum : ℤ := (jsAbs num).floor
  let intNum2 : ℤ := if intNum = 0 then 1 else intNum
  if intNum2 > 9999 then intNum2 % 9999 + 1 else intNum2

/-- One library entry, as stored in `data/library.json`. The file is JSON, so
the `number` field can hold any (finite double) value, including fractional or
out-of-range values in a hand-edited file; hence `ℚ`. -/
structure QAEntry where
  question : String
  number : ℚ
deriving DecidableEq, Repr

/-- Where a resolved number came from (`numberSource` in src/server.js). -/
inductive Source where
  | library
  | gpt
deriving DecidableEq, Repr

/-- The `numberSource` string value used in JSON payloads. -/
def Source.asText : Source → String
  | .library => "library"
  | .gpt => "gpt"

/-- Failures `processQuestionLogic` can propagate to its caller: the
`"Question is required"` throw (line 578) and a failed/um-parseable oracle
call (the awaited `openai.responses.parse`, lines 612-627). -/
inductive PQError where
  | emptyQuestion
  | oracleUnavailable
deriving DecidableEq, Repr

/-- The value returned by `processQuestionLogic` (lines 721-725), minus the
constant `success: true` field. -/
structure PQResponse where
  number : ℤ
  numberSource : Source
deriving DecidableEq, Repr

/-- The contents of `data/current-question.json` (lines 684-689). -/
structure CurrentQuestionData where
  question : String
  number : ℤ
  numberSource : Source
  timestamp : String
deriving DecidableEq, Repr

/-- A JSON scalar appearing in the broadcast payload. -/
inductive JsonVal where
  | str (s : String)
  | int (n : ℤ)
deriving DecidableEq, Repr

/-- The broadcast payload (lines 708-714) as an ordered JSON object, keys as
written in the source. -/
def broadcastMessage (number : ℤ) (question : String) (numberSource : Source)
    (timestamp : String) : List (String × JsonVal) :=
  [("type", JsonVal.str "number-update"),
   ("number", JsonVal.int number),
   ("question", JsonVal.str (jsTrim question)),
   ("numberSource", JsonVal.str numberSource.asText),
   ("timestamp", JsonVal.str timestamp)]

/-- A WebSocket `readyState` (the JS constant `OPEN` is the `opened`
constructor; `open` is a Lean keyword). -/
inductive ReadyState where
  | connecting
  | opened
  | closing
  | closed
deriving DecidableEq, Repr

/-- One WebSocket client in `wss.clients`, together with the messages it has
received. -/
structure Client where
  readyState : ReadyState
  received : List (List (String × JsonVal))
deriving DecidableEq, Repr

/-- The broadcast loop (lines 715-719): every client whose `readyState` is
`OPEN` gets the message; the rest are skipped. -/
def sendToClients (clients : List Client) (msg : List (String × JsonVal)) :
    List Client :=
  clients.map fun c =>
    if c.readyState = ReadyState.opened then
      { c with received := c.received ++ [msg] }
    else c

/-- Server-side persistent state touched by the pipeline: the library file and
the current-question file (`none` models a missing or unparseable file, which
every reader treats as absent), plus the connected WebSocket clients. -/
structure PQState where
  libFile : Option (List QAEntry)
  currentFile : Option CurrentQuestionData
  clients : List Client
deriving DecidableEq, Repr

/-- The library lookup of `processQuestionLogic` (lines 582-601): read the
library file (missing/corrupt means no match), normalize both sides by
trim + lowercase, and take the first matching entry's `number`. -/
def numberFromLibrary (question : String) (libFile : Option (List QAEntry)) :
    Option ℚ :=
  match libFile with
  | none => none
  | some lib =>
    match lib.find? fun e =>
        jsToLower (jsTrim e.question) == jsToLower (jsTrim question) with
    | some entry => some entry.number
    | none => none

/-- The `NumberResponse` zod schema (lines 747-754): `refine` rejects raw
values with `|raw| > 9999`, then `transform` applies `enforceMaxDigits`.
`none` models a parse failure (the whole `responses.parse` call throws). -/
def zodParseNumber (raw : ℚ) : Option ℤ :=
  if jsAbs raw ≤ 9999 then some (enforceMaxDigits raw) else none

/-- Resolution of the number (lines 603-634): library hit re-clamped by
`enforceMaxDigits`, else the oracle path: a failed call or a schema-rejected
response throws, a parsed response gets the backup `enforceMaxDigits` at line
632. `oracleRaw = none` models a failed oracle call. -/
def resolveNumber (question : String) (libFile : Option (List QAEntry))
    (oracleRaw : Option ℚ) : Except PQError (ℤ × Source) :=
  match numberFromLibrary question libFile with
  | some n => .ok (enforceMaxDigits n, Source.library)
  | none =>
    match oracleRaw with
    | none => .error .oracleUnavailable
    | some raw =>
      match zodParseNumber raw with
      | none => .error .oracleUnavailable
      | some parsed => .ok (enforceMaxDigits (parsed : ℚ), Source.gpt)

/-- The library append of `processQuestionLogic` (lines 636-681): re-read the
library (missing/corrupt reads as `[]`), skip entirely when it already holds
1000 or more entries, otherwise push `{question: question.trim(), number}` and
write the file; a failed write is caught and leaves the file as it was
(`storeWriteOk = false` models the write throwing). -/
def appendToLibrary (question : String) (constrainedNumber : ℤ)
    (storeWriteOk : Bool) (libFile : Option (List QAEntry)) :
    Option (List QAEntry) :=
  if (libFile.getD []).length ≥ 1000 then libFile
  else if storeWriteOk then
    some (libFile.getD [] ++ [⟨jsTrim question, (constrainedNumber : ℚ)⟩])
  else libFile

/-- `processQuestionLogic` (src/server.js lines 576-726), sequentially: the
falsy-question guard, library lookup, oracle fallback, conditional append of
gpt-sourced answers, current-question write (failure caught, line 702), and
the broadcast. Both file reads see the same `st.libFile` (no interleaving in
a single sequential call). -/
def processQuestion (question : String) (oracleRaw : Option ℚ)
    (storeWriteOk stateWriteOk : Bool) (now : String) (st : PQState) :
    Except PQError PQResponse × PQState :=
  if question = "" then (.error .emptyQuestion, st)
  else
    match resolveNumber question st.libFile oracleRaw with
    | .error e => (.error e, st)
    | .ok (constrainedNumber, numberSource) =>
      let libAfter :=
        if numberSource = Source.gpt then
          appendToLibrary question constrainedNumber storeWriteOk st.libFile
        else st.libFile
      let data : CurrentQuestionData :=
        ⟨jsTrim question, constrainedNumber, numberSource, now⟩
      let stateAfter := if stateWriteOk then some data else st.currentFile
      let msg := broadcastMessage constrainedNumber question numberSource now
      (.ok ⟨constrainedNumber, numberSource⟩,
       ⟨libAfter, stateAfter, sendToClients st.clients msg⟩)

/-- The inputs of one `processQuestionLogic` call, for reasoning about
sequences of resolutions. -/
structure ResolveCall where
  question : String
  oracleRaw : Option ℚ
  storeWriteOk : Bool
  stateWriteOk : Bool
  now : String

/-- Run a sequence of `processQuestionLogic` calls, threading the state. -/
def runResolveSeq (calls : List ResolveCall) (st : PQState) : PQState :=
  calls.foldl
    (fun s c =>
      (processQuestion c.question c.oracleRaw c.storeWriteOk c.stateWriteOk
          c.now s).2)
    st

/-- Strip one maximal trailing run of characters satisfying `p`, the effect of
the JS `replace(/[,;]+$/, "")` and `replace(/\.+$/, "")` calls. -/
def stripTrailing (p : Char → Bool) (s : String) : String :=
  String.mk ((s.data.reverse.dropWhile p).reverse)

/-- Question cleanup of the batch endpoint (lines 817-821): trim, drop
trailing commas/semicolons, drop trailing periods, trim again. -/
def cleanQuestion (q : String) : String :=
  jsTrim (stripTrailing (fun c => c == '.')
    (stripTrailing (fun c => c == ',' || c == ';') (jsTrim q)))

/-- Batch pair cleanup (lines 815-824): clean each question, clamp each
number, and drop pairs whose cleaned question is empty. -/
def cleanQAPairs (pairs : List (String × ℚ)) : List QAEntry :=
  (pairs.map fun p => (⟨cleanQuestion p.1, (enforceMaxDigits p.2 : ℚ)⟩ : QAEntry)).filter
    fun e => e.question.length > 0

/-- The library write of `/update-suggested-questions-library` (lines
834-850): read the existing file (missing/corrupt reads as `[]`) and write
back `[...existingQuestions, ...cleanedQAPairs]` — with no size cap. -/
def updateLibraryBatch (existing : List QAEntry) (pairs : List (String × ℚ)) :
    List QAEntry :=
  existing ++ cleanQAPairs pairs

/-- Failures of `/get-current-question` (lines 965-1046), i.e. the two 404
responses of the auto-seed path: `"No questions available"` for an empty
library (lines 998-1004), and `"Library not found"` from the
`catch (libraryErr)` at lines 1024-1030 — which intercepts both a failed
library read and any throw of the inner `processQuestionLogic` call at line
1013, since that call sits inside the same try block. -/
inductive GCQError where
  | noQuestionsAvailable
  | libraryNotFound
deriving DecidableEq, Repr

/-- The response of `/get-current-question`: either the stored current
question echoed back (lines 980-983), or a freshly resolved random question
flagged `autoGenerated: true` (lines 1016-1023). -/
inductive GCQResponse where
  | stored (d : CurrentQuestionData)
  | autoGenerated (question : String) (number : ℤ) (numberSource : Source)
      (timestamp : String)
deriving DecidableEq, Repr

/-- `/get-current-question` (src/server.js lines 965-1046): return the stored
current question if its file parses; otherwise pick a random library question
(`randomIndex` models `Math.floor(Math.random() * length)`, reduced modulo the
length so the model is total) and run it through `processQuestionLogic`. -/
def getCurrentQuestion (randomIndex : ℕ) (oracleRaw : Option ℚ)
    (storeWriteOk stateWriteOk : Bool) (now : String) (st : PQState) :
    Except GCQError GCQResponse × PQState :=
  match st.currentFile with
  | some d => (.ok (.stored d), st)
  | none =>
    match st.libFile with
    | none => (.error .libraryNotFound, st)
    | some lib =>
      if h : lib.length = 0 then (.error .noQuestionsAvailable, st)
      else
        let randomQuestion :=
          (lib.get ⟨randomIndex % lib.length,
            Nat.mod_lt _ (Nat.pos_of_ne_zero h)⟩).question
        match processQuestion randomQuestion oracleRaw storeWriteOk
            stateWriteOk now st with
        | (.ok resp, st2) =>
          (.ok (.autoGenerated (jsTrim randomQuestion) resp.number
            resp.numberSource now), st2)
        | (.error _, st2) => (.error .libraryNotFound, st2)

deriving instance DecidableEq for Except

/-!
Helper lemmas about the embedded definitions, shared by the claim theorems.
-/

/-- The JS absolute value agrees with the mathematical one. -/
theorem jsAbs_eq_abs (q : ℚ) : jsAbs q = |q| := by
  unfold jsAbs
  split
  · exact (abs_of_neg (by assumption)).symm
  · exact (abs_of_nonneg (by linarith [lt_or_ge q 0])).symm

/-- The executable `Rat.floor` agrees with the floor of the order structure. -/
theorem ratFloor_eq_floor (q : ℚ) : q.floor = ⌊q⌋ := by
  rw [Rat.floor_def', Rat.floor_def]

/-- Zeta-reduced form of `enforceMaxDigits`. -/
theorem enforceMaxDigits_eq (num : ℚ) :
    enforceMaxDigits num =
      if (if (jsAbs num).floor = 0 then (1 : ℤ) else (jsAbs num).floor) > 9999
      then (if (jsAbs num).floor = 0 then (1 : ℤ) else (jsAbs num).floor) % 9999 + 1
      else if (jsAbs num).floor = 0 then 1 else (jsAbs num).floor := rfl

/-- `enforceMaxDigits` always lands in `[1, 9999]`. -/
theorem enforceMaxDigits_bounds (num : ℚ) :
    1 ≤ enforceMaxDigits num ∧ enforceMaxDigits num ≤ 9999 := by
  have h0 : (0 : ℤ) ≤ (jsAbs num).floor := by
    rw [ratFloor_eq_floor, jsAbs_eq_abs]
    exact Int.floor_nonneg.mpr (abs_nonneg num)
  rw [enforceMaxDigits_eq]
  split_ifs <;> omega

/-- `enforceMaxDigits` fixes integers already in `[1, 9999]`. -/
theorem enforceMaxDigits_intCast (n : ℤ) (h1 : 1 ≤ n) (h2 : n ≤ 9999) :
    enforceMaxDigits (n : ℚ) = n := by
  have hj : jsAbs ((n : ℚ)) = (n : ℚ) := by
    unfold jsAbs
    rw [if_neg]
    push_neg
    exact_mod_cast (by omega : (0 : ℤ) ≤ n)
  have hf : ((n : ℚ)).floor = n := by
    rw [ratFloor_eq_floor]
    exact Int.floor_intCast n
  rw [enforceMaxDigits_eq, hj, hf]
  split_ifs <;> omega

/-- Applying `enforceMaxDigits` to its own (integer) output changes nothing. -/
theorem enforceMaxDigits_idem (q : ℚ) :
    enforceMaxDigits ((enforceMaxDigits q : ℤ) : ℚ) = enforceMaxDigits q :=
  enforceMaxDigits_intCast _ (enforceMaxDigits_bounds q).1
    (enforceMaxDigits_bounds q).2

/-- `resolveNumber` never produces the empty-question error. -/
theorem resolveNumber_ne_emptyQuestion (question : String)
    (libFile : Option (List QAEntry)) (oracleRaw : Option ℚ) :
    resolveNumber question libFile oracleRaw ≠ .error .emptyQuestion := by
  unfold resolveNumber
  split
  · simp
  · split
    · simp
    · split <;> simp

/-- Every number `resolveNumber` produces is an `enforceMaxDigits` output. -/
theorem resolveNumber_ok_enforce (question : String)
    (libFile : Option (List QAEntry)) (oracleRaw : Option ℚ) (n : ℤ)
    (s : Source) (h : resolveNumber question libFile oracleRaw = .ok (n, s)) :
    ∃ m : ℚ, n = enforceMaxDigits m := by
  unfold resolveNumber at h
  split at h
  · rename_i m hm
    simp only [Except.ok.injEq, Prod.mk.injEq] at h
    exact ⟨m, h.1.symm⟩
  · split at h
    · simp at h
    · split at h
      · simp at h
      · rename_i parsed hz
        simp only [Except.ok.injEq, Prod.mk.injEq] at h
        exact ⟨(parsed : ℚ), h.1.symm⟩

/-- A library hit resolves to the clamped stored number, whatever the oracle
would have said. -/
theorem resolveNumber_library_hit (question : String)
    (libFile : Option (List QAEntry)) (oracleRaw : Option ℚ) (m : ℚ)
    (h : numberFromLibrary question libFile = some m) :
    resolveNumber question libFile oracleRaw =
      .ok (enforceMaxDigits m, Source.library) := by
  unfold resolveNumber
  rw [h]

/-- Inversion for a successful `processQuestion` call: the guard passed, the
number came from `resolveNumber`, and the three side effects are exactly the
conditional append, the conditional state write, and the broadcast. -/
theorem processQuestion_ok_inv (question : String) (oracleRaw : Option ℚ)
    (swo stwo : Bool) (now : String) (st : PQState) (resp : PQResponse)
    (st2 : PQState)
    (h : processQuestion question oracleRaw swo stwo now st = (.ok resp, st2)) :
    question ≠ "" ∧
    resolveNumber question st.libFile oracleRaw =
      .ok (resp.number, resp.numberSource) ∧
    st2.libFile = (if resp.numberSource = Source.gpt
      then appendToLibrary question resp.number swo st.libFile
      else st.libFile) ∧
    st2.currentFile = (if stwo
      then some ⟨jsTrim question, resp.number, resp.numberSource, now⟩
      else st.currentFile) ∧
    st2.clients = sendToClients st.clients
      (broadcastMessage resp.number question resp.numberSource now) := by
  unfold processQuestion at h
  by_cases hq : question = ""
  · rw [if_pos hq] at h
    simp at h
  · rw [if_neg hq] at h
    cases hr : resolveNumber question st.libFile oracleRaw with
    | error e => rw [hr] at h; simp at h
    | ok pair =>
      obtain ⟨n, s⟩ := pair
      rw [hr] at h
      simp only [Prod.mk.injEq, Except.ok.injEq] at h
      obtain ⟨h1, h2⟩ := h
      subst h1
      subst h2
      exact ⟨hq, rfl, rfl, rfl, rfl⟩

/-- One `processQuestion` call either leaves the library file untouched or
passes it through `appendToLibrary`. -/
theorem processQuestion_libFile_cases (question : String)
    (oracleRaw : Option ℚ) (swo stwo : Bool) (now : String) (st : PQState) :
    (processQuestion question oracleRaw swo stwo now st).2.libFile =
      st.libFile ∨
    ∃ n, (processQuestion question oracleRaw swo stwo now st).2.libFile =
      appendToLibrary question n swo st.libFile := by
  unfold processQuestion
  by_cases hq : question = ""
  · rw [if_pos hq]
    exact Or.inl rfl
  · rw [if_neg hq]
    cases hr : resolveNumber question st.libFile oracleRaw with
    | error e => exact Or.inl rfl
    | ok pair =>
      obtain ⟨n, s⟩ := pair
      cases s with
      | library => exact Or.inl (by simp)
      | gpt => exact Or.inr ⟨n, by simp⟩

/-- An append against a full (or over-full) library is a no-op. -/
theorem appendToLibrary_frozen (question : String) (n : ℤ) (swo : Bool)
    (lf : Option (List QAEntry)) (h : 1000 ≤ (lf.getD []).length) :
    appendToLibrary question n swo lf = lf := by
  unfold appendToLibrary
  rw [if_pos h]

/-- An append never pushes the library length above 1000. -/
theorem appendToLibrary_length_le (question : String) (n : ℤ) (swo : Bool)
    (lf : Option (List QAEntry)) (h : (lf.getD []).length ≤ 1000) :
    ((appendToLibrary question n swo lf).getD []).length ≤ 1000 := by
  unfold appendToLibrary
  split_ifs with h1 h2
  · exact h
  · simp only [Option.getD_some, List.length_append, List.length_singleton]
    omega
  · exact h

/-- One resolution call keeps the library at or below 1000 entries. -/
theorem processQuestion_libFile_le (question : String) (oracleRaw : Option ℚ)
    (swo stwo : Bool) (now : String) (st : PQState)
    (h : (st.libFile.getD []).length ≤ 1000) :
    ((processQuestion question oracleRaw swo stwo now
        st).2.libFile.getD []).length ≤ 1000 := by
  rcases processQuestion_libFile_cases question oracleRaw swo stwo now st with
    hc | ⟨n, hc⟩
  · rw [hc]
    exact h
  · rw [hc]
    exact appendToLibrary_length_le question n swo st.libFile h

/-- C1 counterexample: the claim is false for batch-generation appends. A
batch update (`/update-suggested-questions-library`) of a library already
holding 1000 entries concatenates the 25 cleaned pairs with no cap check and
grows the persisted store to 1025 entries. -/
theorem batchAppend_exceeds_cap :
    1000 < (updateLibraryBatch (List.replicate 1000 ⟨"q", 1⟩)
      (List.replicate 25 ("Question A", (5 : ℚ)))).length := by
  have h25 : (cleanQAPairs (List.replicate 25 ("Question A", (5 : ℚ)))).length
      = 25 := by decide
  unfold updateLibraryBatch
  rw [List.length_append, List.length_replicate, h25]
  norm_num

/-- C1 (amended): resolve-triggered appends do respect the cap — an append
attempted when the store holds 1000 or more entries leaves it unchanged, and
any sequence of resolve calls starting at or below 1000 entries stays at or
below 1000 — but batch-generation appends bypass the cap (see the
counterexample). -/
theorem resolveAppend_cap_invariant :
    (∀ question oracleRaw swo stwo now st,
      1000 ≤ ((st : PQState).libFile.getD []).length →
      (processQuestion question oracleRaw swo stwo now st).2.libFile =
        st.libFile) ∧
    (∀ calls st, ((st : PQState).libFile.getD []).length ≤ 1000 →
      ((runResolveSeq calls st).libFile.getD []).length ≤ 1000) := by
  constructor
  · intro question oracleRaw swo stwo now st h
    rcases processQuestion_libFile_cases question oracleRaw swo stwo now st
      with hc | ⟨n, hc⟩
    · rw [hc]
    · rw [hc]
      exact appendToLibrary_frozen question n swo st.libFile h
  · intro calls
    induction calls with
    | nil =>
      intro st h
      simpa [runResolveSeq] using h
    | cons c cs ih =>
      intro st h
      have hstep := processQuestion_libFile_le c.question c.oracleRaw
        c.storeWriteOk c.stateWriteOk c.now st h
      simpa [runResolveSeq, List.foldl_cons] using
        ih _ hstep

/-- C1 witness: a store of exactly 1000 entries is untouched by a resolve
that would otherwise append. -/
theorem resolveAppend_cap_invariant_witness :
    1000 ≤ (((some (List.replicate 1000 (⟨"q", (1 : ℚ)⟩ : QAEntry))
        : Option (List QAEntry)).getD []).length) ∧
    (processQuestion "new q" (some 5) true true "t"
        ⟨some (List.replicate 1000 ⟨"q", 1⟩), none, []⟩).2.libFile =
      some (List.replicate 1000 ⟨"q", 1⟩) :=
  ⟨by rw [Option.getD_some, List.length_replicate],
    resolveAppend_cap_invariant.1 "new q" (some 5) true true "t"
    ⟨some (List.replicate 1000 ⟨"q", 1⟩), none, []⟩
    (by rw [Option.getD_some, List.length_replicate])⟩

/-- C6: when the question misses the library and the oracle call fails, the
resolver propagates `OracleUnavailable` and the entire state — library file,
current-question file, clients — is returned exactly as it was. -/
theorem oracle_failure_no_mutation (question : String) (swo stwo : Bool)
    (now : String) (st : PQState) (hq : question ≠ "")
    (hm : numberFromLibrary question st.libFile = none) :
    processQuestion question none swo stwo now st =
      (.error .oracleUnavailable, st) := by
  unfold processQuestion
  rw [if_neg hq]
  have hr : resolveNumber question st.libFile none =
      .error .oracleUnavailable := by
    unfold resolveNumber
    rw [hm]
  rw [hr]

/-- C6 witness. -/
theorem oracle_failure_no_mutation_witness :
    "x" ≠ "" ∧
    numberFromLibrary "x" ((⟨some [], none, []⟩ : PQState).libFile) = none ∧
    processQuestion "x" none true true "t" ⟨some [], none, []⟩ =
      (.error .oracleUnavailable, ⟨some [], none, []⟩) :=
  ⟨by decide, by decide,
    oracle_failure_no_mutation "x" true true "t" ⟨some [], none, []⟩
      (by decide) (by decide)⟩

/-- C7: whenever a number is reached — a library hit, or an oracle response
that passes the schema — the resolver returns a successful response, for
every store (at cap or not) and even when the store write and the state
write both fail. -/
theorem resolution_succeeds_despite_persistence (question : String)
    (oracleRaw : Option ℚ) (swo stwo : Bool) (now : String) (st : PQState)
    (hq : question ≠ "")
    (h : (numberFromLibrary question st.libFile).isSome ∨
      ∃ r, oracleRaw = some r ∧ jsAbs r ≤ 9999) :
    ∃ resp st2,
      processQuestion question oracleRaw swo stwo now st = (.ok resp, st2) := by
  unfold processQuestion
  rw [if_neg hq]
  rcases h with h | ⟨r, hr, hle⟩
  · obtain ⟨m, hm⟩ := Option.isSome_iff_exists.mp h
    rw [resolveNumber_library_hit question st.libFile oracleRaw m hm]
    exact ⟨_, _, rfl⟩
  · cases hm : numberFromLibrary question st.libFile with
    | some m =>
      rw [resolveNumber_library_hit question st.libFile oracleRaw m hm]
      exact ⟨_, _, rfl⟩
    | none =>
      have hres : resolveNumber question st.libFile oracleRaw =
          .ok (enforceMaxDigits ((enforceMaxDigits r : ℤ) : ℚ), Source.gpt) := by
        unfold resolveNumber zodParseNumber
        rw [hm, hr]
        dsimp only
        rw [if_pos hle]
      rw [hres]
      exact ⟨_, _, rfl⟩

/-- C7 witness: a store already at the 1000-entry cap, with both writes
failing, still yields a successful response. -/
theorem resolution_succeeds_despite_persistence_witness :
    ∃ resp st2,
      processQuestion "x" (some 5) false false "t"
        ⟨some (List.replicate 1000 ⟨"q", 1⟩), none, []⟩ = (.ok resp, st2) :=
  resolution_succeeds_despite_persistence "x" (some 5) false false "t"
    ⟨some (List.replicate 1000 ⟨"q", 1⟩), none, []⟩ (by decide)
    (Or.inr ⟨5, rfl, by norm_num [jsAbs]⟩)

/-- C10: every successful resolution — library hit on an arbitrary (even
corrupt, out-of-range) stored number, or oracle answer — returns a number in
`[1, 9999]`, and the broadcast carries exactly that number. -/
theorem resolved_number_in_range (question : String) (oracleRaw : Option ℚ)
    (swo stwo : Bool) (now : String) (st : PQState) (resp : PQResponse)
    (st2 : PQState)
    (h : processQuestion question oracleRaw swo stwo now st = (.ok resp, st2)) :
    (1 ≤ resp.number ∧ resp.number ≤ 9999) ∧
    st2.clients = sendToClients st.clients
      (broadcastMessage resp.number question resp.numberSource now) := by
  obtain ⟨-, hr, -, -, hc⟩ :=
    processQuestion_ok_inv question oracleRaw swo stwo now st resp st2 h
  obtain ⟨m, hm⟩ := resolveNumber_ok_enforce question st.libFile oracleRaw
    resp.number resp.numberSource hr
  exact ⟨hm ▸ enforceMaxDigits_bounds m, hc⟩

/-- C10 witness: a library entry holding the out-of-range number 20000 is
clamped to 3 on the way out. -/
theorem resolved_number_in_range_witness :
    ((1 : ℤ) ≤ (3 : ℤ) ∧ (3 : ℤ) ≤ 9999) ∧
    ([] : List Client) = sendToClients []
      (broadcastMessage 3 "x" Source.library "t") :=
  resolved_number_in_range "x" none true false "t"
    ⟨some [⟨"x", 20000⟩], none, []⟩ ⟨3, Source.library⟩
    ⟨some [⟨"x", 20000⟩], none, []⟩ (by decide)

/-- C2: `enforceMaxDigits` maps every finite numeric input to an integer in
`[1, 9999]` (the codomain is `ℤ`, so the result is by construction never
fractional), with the claimed edge cases: 0 to 1, 9999 to 9999, 10000 to 2,
-15 to 15, 3.7 to 3. -/
theorem enforceMaxDigits_contract :
    (∀ raw : ℚ, 1 ≤ enforceMaxDigits raw ∧ enforceMaxDigits raw ≤ 9999) ∧
    enforceMaxDigits 0 = 1 ∧ enforceMaxDigits 9999 = 9999 ∧
    enforceMaxDigits 10000 = 2 ∧ enforceMaxDigits (-15) = 15 ∧
    enforceMaxDigits (37 / 10) = 3 := by
  refine ⟨enforceMaxDigits_bounds, by decide, by decide, by decide, by decide,
    ?_⟩
  have h : (37 / 10 : ℚ) = Rat.divInt 37 10 := by
    rw [Rat.divInt_eq_div]
    norm_num
  rw [h]
  decide

/-- C3 counterexample: the guard is the JS falsy test `if (!question)`, so a
whitespace-only question — trimmed-empty — is NOT rejected with
`EmptyQuestion`: it resolves through the oracle and even appends a library
entry whose stored question is the empty string. -/
theorem whitespace_question_not_rejected :
    jsTrim " " = "" ∧
    (processQuestion " " (some 5) true true "t" ⟨some [], none, []⟩).1 =
      .ok ⟨5, Source.gpt⟩ ∧
    (processQuestion " " (some 5) true true "t"
        ⟨some [], none, []⟩).2.libFile = some [⟨"", (5 : ℚ)⟩] :=
  ⟨by decide, by decide, by decide⟩

/-- C3 (amended): resolve fails with `EmptyQuestion` — leaving the whole
state untouched — exactly when the raw input is the empty string; any other
input, whitespace-only included, passes the guard and proceeds. -/
theorem emptyQuestion_iff_empty_string (question : String)
    (oracleRaw : Option ℚ) (swo stwo : Bool) (now : String) (st : PQState) :
    processQuestion question oracleRaw swo stwo now st =
      (.error .emptyQuestion, st) ↔ question = "" := by
  constructor
  · intro h
    by_contra hq
    unfold processQuestion at h
    rw [if_neg hq] at h
    cases hr : resolveNumber question st.libFile oracleRaw with
    | error e =>
      rw [hr] at h
      have he : e = .emptyQuestion := by
        have hfst := congrArg Prod.fst h
        simpa using hfst
      exact resolveNumber_ne_emptyQuestion question st.libFile oracleRaw
        (he ▸ hr)
    | ok pair =>
      obtain ⟨n, s⟩ := pair
      rw [hr] at h
      simp at h
  · intro hq
    subst hq
    unfold processQuestion
    rw [if_pos rfl]

/-- C4 counterexample: the `NumberResponse` schema's `refine` rejects a raw
oracle output of 12345 (|12345| > 9999) before any transform runs, so the
resolve fails instead of succeeding with 2347, and nothing is appended. -/
theorem oracle_12345_rejected_by_schema :
    enforceMaxDigits 12345 = 2347 ∧
    processQuestion "new question" (some 12345) true true "t"
        ⟨some [], none, []⟩ =
      (.error .oracleUnavailable, ⟨some [], none, []⟩) :=
  ⟨by decide, by decide⟩

/-- C4 (amended): `enforceMaxDigits 12345 = 2347` as the algorithm states,
but the pipeline never reaches it for a raw oracle value of 12345 — the
schema gate fails the resolution and leaves the empty store empty; for any
raw value that passes the schema (|raw| ≤ 9999), the resolve succeeds with
`enforceMaxDigits raw` and appends exactly that one entry. -/
theorem oracle_resolution_behavior :
    (processQuestion "new question" (some 12345) true true "t"
        ⟨some [], none, []⟩ =
      (.error .oracleUnavailable, ⟨some [], none, []⟩)) ∧
    enforceMaxDigits 12345 = 2347 ∧
    (∀ r : ℚ, jsAbs r ≤ 9999 → ∀ now clients,
      (processQuestion "new question" (some r) true true now
          ⟨some [], none, clients⟩).1 =
        .ok ⟨enforceMaxDigits r, Source.gpt⟩ ∧
      (processQuestion "new question" (some r) true true now
          ⟨some [], none, clients⟩).2.libFile =
        some [⟨"new question", (enforceMaxDigits r : ℚ)⟩]) := by
  refine ⟨by decide, by decide, ?_⟩
  intro r hle now clients
  have hm : numberFromLibrary "new question" (some ([] : List QAEntry)) =
      none := rfl
  have hres : resolveNumber "new question" (some []) (some r) =
      .ok (enforceMaxDigits r, Source.gpt) := by
    unfold resolveNumber zodParseNumber
    rw [hm]
    dsimp only
    rw [if_pos hle]
    dsimp only
    rw [enforceMaxDigits_idem]
  have htrim : jsTrim "new question" = "new question" := by decide
  constructor
  · unfold processQuestion
    rw [if_neg (by decide)]
    dsimp only
    rw [hres]
  · unfold processQuestion
    rw [if_neg (by decide)]
    dsimp only
    rw [hres]
    dsimp only
    rw [if_pos rfl]
    unfold appendToLibrary
    rw [if_neg (by decide)]
    rw [if_pos rfl]
    rw [htrim]
    rfl

/-- C4 witness: an in-range oracle value (42) does succeed and is stored. -/
theorem oracle_resolution_behavior_witness :
    jsAbs (42 : ℚ) ≤ 9999 ∧
    (processQuestion "new question" (some 42) true true "t"
        ⟨some [], none, []⟩).1 = .ok ⟨42, Source.gpt⟩ := by
  have h := (oracle_resolution_behavior.2.2 42 (by decide) "t" []).1
  have h42 : enforceMaxDigits (42 : ℚ) = 42 := by decide
  rw [h42] at h
  exact ⟨by decide, h⟩

/-- In a library whose prefix has no normalized match, the first matching
entry's number is returned. -/
theorem numberFromLibrary_first (question : String) (l1 l2 : List QAEntry)
    (e : QAEntry)
    (h1 : ∀ e1 ∈ l1,
      jsToLower (jsTrim e1.question) ≠ jsToLower (jsTrim question))
    (h2 : jsToLower (jsTrim e.question) = jsToLower (jsTrim question)) :
    numberFromLibrary question (some (l1 ++ e :: l2)) = some e.number := by
  unfold numberFromLibrary
  dsimp only
  have hnone : l1.find? (fun e1 =>
      jsToLower (jsTrim e1.question) == jsToLower (jsTrim question)) = none :=
    List.find?_eq_none.mpr fun x hx => by simpa using h1 x hx
  have hcons : (e :: l2).find? (fun e1 =>
      jsToLower (jsTrim e1.question) == jsToLower (jsTrim question)) =
      some e :=
    List.find?_cons_of_pos _ (by simpa using h2)
  rw [List.find?_append, hnone, hcons]
  rfl

/-- C5 counterexample: a library hit does not return the stored number as-is;
it returns `enforceMaxDigits` of it. An entry storing 12000 resolves (from
the library, without the oracle) to 2002, not 12000. -/
theorem library_hit_reclamps_stored_number :
    (processQuestion "x" none true true "t"
        ⟨some [⟨"x", 12000⟩], none, []⟩).1 = .ok ⟨2002, Source.library⟩ ∧
    (2002 : ℤ) ≠ 12000 :=
  ⟨by decide, by decide⟩

/-- C5 (amended): a resolve hitting the library returns `enforceMaxDigits` of
the first matching entry's number with source `library`, independent of the
oracle (which is never consulted — the result is the same for every
`oracleRaw`, including a failing one); when the stored number is already an
integer in `[1, 9999]`, that is exactly the entry's number, as in the
concrete `{"What is 2+2": 4}` example. -/
theorem library_hit_first_match :
    (∀ question l1 l2 e oracleRaw swo stwo now currentFile clients,
      question ≠ "" →
      (∀ e1 ∈ l1,
        jsToLower (jsTrim e1.question) ≠ jsToLower (jsTrim question)) →
      jsToLower (jsTrim e.question) = jsToLower (jsTrim question) →
      (processQuestion question oracleRaw swo stwo now
          ⟨some (l1 ++ e :: l2), currentFile, clients⟩).1 =
        .ok ⟨enforceMaxDigits e.number, Source.library⟩) ∧
    (∀ n : ℤ, 1 ≤ n → n ≤ 9999 → enforceMaxDigits ((n : ℚ)) = n) ∧
    (processQuestion "  what is 2+2  " none true true "t"
        ⟨some [⟨"What is 2+2", (4 : ℚ)⟩], none, []⟩).1 =
      .ok ⟨4, Source.library⟩ := by
  refine ⟨?_, enforceMaxDigits_intCast, by decide⟩
  intro question l1 l2 e oracleRaw swo stwo now currentFile clients hq h1 h2
  have hm := numberFromLibrary_first question l1 l2 e h1 h2
  unfold processQuestion
  rw [if_neg hq]
  dsimp only
  rw [resolveNumber_library_hit question _ oracleRaw e.number hm]

/-- C5 witness: the concrete example, with an oracle that would have said 99
— the library hit ignores it. -/
theorem library_hit_first_match_witness :
    (processQuestion "  what is 2+2  " (some 99) true true "t"
        ⟨some [⟨"What is 2+2", (4 : ℚ)⟩], none, []⟩).1 =
      .ok ⟨4, Source.library⟩ := by
  have h := library_hit_first_match.1 "  what is 2+2  " [] []
    ⟨"What is 2+2", (4 : ℚ)⟩ (some 99) true true "t" none [] (by decide)
    (by simp) (by decide)
  have h4 : enforceMaxDigits ((4 : ℚ)) = 4 := by decide
  rw [h4] at h
  exact h

/-- C8 counterexample: the broadcast payload's source field is spelled
`numberSource`, not `source` — the delivered message's key list has no
`source` key, refuting the claimed shape at a concrete successful resolve
with one open subscriber. -/
theorem broadcast_field_named_numberSource :
    ((broadcastMessage 5 "q" Source.gpt "t").map Prod.fst =
      ["type", "number", "question", "numberSource", "timestamp"]) ∧
    "source" ∉ (broadcastMessage 5 "q" Source.gpt "t").map Prod.fst ∧
    (processQuestion "q" (some 5) true true "t"
        ⟨some [], none, [⟨ReadyState.opened, []⟩]⟩).2.clients =
      [⟨ReadyState.opened, [broadcastMessage 5 "q" Source.gpt "t"]⟩] :=
  ⟨by decide, by decide, by decide⟩

/-- C8 (amended): on every successful resolve the message
`{type: "number-update", number, question, numberSource, timestamp}` (the
source field is spelled `numberSource`, with values `"library"`/`"gpt"`) is
delivered to every currently-open subscriber; a non-open subscriber is left
exactly as it was, and publishing with zero subscribers is a no-op that
cannot fail. -/
theorem broadcast_delivery :
    (∀ question oracleRaw swo stwo now st resp st2,
      processQuestion question oracleRaw swo stwo now st = (.ok resp, st2) →
      st2.clients = sendToClients st.clients
        (broadcastMessage resp.number question resp.numberSource now)) ∧
    (∀ msg, sendToClients [] msg = []) ∧
    (∀ clients msg (c : Client), c ∈ clients →
      c.readyState ≠ ReadyState.opened → c ∈ sendToClients clients msg) ∧
    (∀ clients msg (c : Client), c ∈ clients →
      c.readyState = ReadyState.opened →
      (⟨ReadyState.opened, c.received ++ [msg]⟩ : Client) ∈
        sendToClients clients msg) ∧
    (∀ number question src now,
      (broadcastMessage number question src now).map Prod.fst =
        ["type", "number", "question", "numberSource", "timestamp"]) := by
  refine ⟨?_, fun msg => rfl, ?_, ?_, fun number question src now => rfl⟩
  · intro question oracleRaw swo stwo now st resp st2 h
    exact (processQuestion_ok_inv question oracleRaw swo stwo now st resp
      st2 h).2.2.2.2
  · intro clients msg c hc hnot
    have hfc : (if c.readyState = ReadyState.opened then
        ({ c with received := c.received ++ [msg] } : Client) else c) = c :=
      if_neg hnot
    have hmem := List.mem_map_of_mem (fun cl : Client =>
      if cl.readyState = ReadyState.opened then
        { cl with received := cl.received ++ [msg] } else cl) hc
    dsimp only at hmem
    rw [hfc] at hmem
    exact hmem
  · intro clients msg c hc hopen
    have hfc2 : ({ c with received := c.received ++ [msg] } : Client) =
        ⟨ReadyState.opened, c.received ++ [msg]⟩ := by
      cases c
      dsimp only at hopen ⊢
      subst hopen
      rfl
    have hmem := List.mem_map_of_mem (fun cl : Client =>
      if cl.readyState = ReadyState.opened then
        { cl with received := cl.received ++ [msg] } else cl) hc
    dsimp only at hmem
    rw [if_pos hopen, hfc2] at hmem
    exact hmem

/-- C8 witness: a closed subscriber is skipped — it survives the publish
unchanged. -/
theorem broadcast_delivery_witness :
    (⟨ReadyState.closed, []⟩ : Client) ∈
      sendToClients [⟨ReadyState.closed, []⟩]
        (broadcastMessage 1 "q" Source.library "t") :=
  broadcast_delivery.2.2.1 [⟨ReadyState.closed, []⟩]
    (broadcastMessage 1 "q" Source.library "t") ⟨ReadyState.closed, []⟩
    (by decide) (by decide)

/-- A question drawn from the library always finds a normalized match in it
(possibly an earlier entry with the same normalization). -/
theorem numberFromLibrary_self (lib : List QAEntry) (i : Fin lib.length) :
    (numberFromLibrary (lib.get i).question (some lib)).isSome := by
  unfold numberFromLibrary
  dsimp only
  cases hf : lib.find? (fun e =>
      jsToLower (jsTrim e.question) ==
        jsToLower (jsTrim (lib.get i).question)) with
  | none =>
    exfalso
    have hmem : lib.get i ∈ lib := lib.get_mem i.1 i.2
    exact absurd (List.find?_eq_none.mp hf _ hmem) (by simp)
  | some e => rfl

/-- C9 counterexample: with the current-question state absent and a NON-empty
library whose randomly-picked entry stores the empty-string question (the
resolve path itself can create such an entry, see the C3 counterexample), the
auto-seed does not return an auto-generated result: the inner
`processQuestionLogic` throws on the empty question, and that throw lands in
the `catch (libraryErr)` wrapping line 1013, so the endpoint answers with the
404 `"Library not found"` response instead. -/
theorem autoseed_fails_on_empty_question_entry :
    getCurrentQuestion 0 (some 5) true true "t"
        ⟨some [⟨"", (5 : ℚ)⟩], none, []⟩ =
      (.error .libraryNotFound,
        ⟨some [⟨"", (5 : ℚ)⟩], none, []⟩) := by decide

/-- C9 (amended): with the state absent and the library non-empty, the
endpoint resolves the randomly picked library question through the same
`processQuestionLogic` pipeline and returns its result flagged
auto-generated — provided the picked question is not the empty string (an
empty picked question makes the inner resolve throw into the same catch as a
library read failure, producing the 404 `"Library not found"` response, see
the counterexample); with the state absent and the library missing it fails
with that same 404 `"Library not found"`, and with the library empty with the
404 `"No questions available"`. -/
theorem getCurrentQuestion_behavior :
    (∀ (i : ℕ) oracleRaw swo stwo now (lib : List QAEntry) clients
        (hi : i < lib.length),
      (lib.get ⟨i, hi⟩).question ≠ "" →
      ∃ resp st2,
        processQuestion (lib.get ⟨i, hi⟩).question oracleRaw swo stwo now
            ⟨some lib, none, clients⟩ = (.ok resp, st2) ∧
        getCurrentQuestion i oracleRaw swo stwo now
            ⟨some lib, none, clients⟩ =
          (.ok (.autoGenerated (jsTrim (lib.get ⟨i, hi⟩).question)
            resp.number resp.numberSource now), st2)) ∧
    (∀ i oracleRaw swo stwo now clients,
      getCurrentQuestion i oracleRaw swo stwo now ⟨none, none, clients⟩ =
        (.error .libraryNotFound, ⟨none, none, clients⟩)) ∧
    (∀ i oracleRaw swo stwo now clients,
      getCurrentQuestion i oracleRaw swo stwo now ⟨some [], none, clients⟩ =
        (.error .noQuestionsAvailable, ⟨some [], none, clients⟩)) := by
  refine ⟨?_, fun i oracleRaw swo stwo now clients => rfl,
    fun i oracleRaw swo stwo now clients => rfl⟩
  intro i oracleRaw swo stwo now lib clients hi hq
  have hsome := numberFromLibrary_self lib ⟨i, hi⟩
  obtain ⟨m, hm⟩ := Option.isSome_iff_exists.mp hsome
  have hpq : processQuestion (lib.get ⟨i, hi⟩).question oracleRaw swo stwo now
      ⟨some lib, none, clients⟩ =
      (.ok ⟨enforceMaxDigits m, Source.library⟩, ⟨some lib,
        (if stwo then some ⟨jsTrim (lib.get ⟨i, hi⟩).question,
          enforceMaxDigits m, Source.library, now⟩ else none),
        sendToClients clients (broadcastMessage (enforceMaxDigits m)
          (lib.get ⟨i, hi⟩).question Source.library now)⟩) := by
    unfold processQuestion
    rw [if_neg hq]
    dsimp only
    rw [resolveNumber_library_hit _ _ oracleRaw m hm]
    dsimp only
    rw [if_neg (by decide : ¬ Source.library = Source.gpt)]
  refine ⟨_, _, hpq, ?_⟩
  unfold getCurrentQuestion
  dsimp only
  rw [dif_neg (by omega : ¬ lib.length = 0)]
  have hget : ∀ (prf : i % lib.length < lib.length),
      lib.get ⟨i % lib.length, prf⟩ = lib.get ⟨i, hi⟩ := by
    intro prf
    congr 1
    exact Fin.ext (Nat.mod_eq_of_lt hi)
  simp only [hget]
  rw [hpq]

/-- C9 witness: a singleton library seeds the absent state and reports the
result as auto-generated. -/
theorem getCurrentQuestion_behavior_witness :
    ∃ resp st2,
      processQuestion "Q" none true true "t" ⟨some [⟨"Q", 7⟩], none, []⟩ =
        (.ok resp, st2) ∧
      getCurrentQuestion 0 none true true "t" ⟨some [⟨"Q", 7⟩], none, []⟩ =
        (.ok (.autoGenerated "Q" resp.number resp.numberSource "t"), st2) := by
  have h := getCurrentQuestion_behavior.1 0 none true true "t" [⟨"Q", 7⟩] []
    (by decide) (by decide)
  obtain ⟨resp, st2, h1, h2⟩ := h
  exact ⟨resp, st2, h1, h2⟩
